import Mathlib

/-!
Verification of wallabag-sync.py (incremental Wallabag-to-HTML sync and CSV importer).

This file gives a shallow embedding of the program's core logic:
the filename sanitizer, the watermark-based check cycle with its client-side
re-filter, the entry listing call, the HTML renderer, the per-entry export
routine, the add-entry API call and the CSV import pipeline.  Network and
clock effects are passed in explicitly as oracles (server responses, the
current time, per-entry content-fetch results, write success), timestamps are
modelled as rationals (the code only ever compares them), and the ISO-8601
timestamp parser `datetime.fromisoformat` together with `strftime` is
abstracted as an explicit function argument, since the code's behaviour only
depends on whether parsing succeeds and on the order of the parsed values.
-/

namespace WallabagSync

/-- Characters matched by the regex class in sanitize_filename
(the set replaced by an underscore). -/
def badChar (c : Char) : Bool :=
  c = '<' || c = '>' || c = ':' || c = '\"' || c = '/' || c = '\\' ||
  c = '|' || c = '?' || c = '*'

/-- One step of re.sub: a bad character becomes an underscore, others stay. -/
def replChar (c : Char) : Char := if badChar c then '_' else c

/-- Whitespace characters removed by Python str.strip with no argument
(ASCII subset, which is what the program's data contains). -/
def pySpace (c : Char) : Bool :=
  c = ' ' || c = '\t' || c = '\n' || c = '\r' || c = '\x0b' || c = '\x0c'

/-- Remove leading whitespace, as Python str.lstrip does. -/
def trimLeft (l : List Char) : List Char := l.dropWhile pySpace

/-- Remove trailing whitespace, as Python str.rstrip does. -/
def trimRight (l : List Char) : List Char := (l.reverse.dropWhile pySpace).reverse

/-- Python str.strip on a character list. -/
def stripPy (l : List Char) : List Char := trimRight (trimLeft l)

/-- Python s.strip() on strings. -/
def pyStrip (s : String) : String := String.mk (stripPy s.data)

/-- sanitize_filename (wallabag-sync.py lines 155-165): replace the characters
in the bad set by an underscore, strip surrounding whitespace, truncate to 200
characters, and fall back to the string untitled when the result is empty. -/
def sanitize_filename (s : String) : String :=
  if ((stripPy (s.data.map replChar)).take 200).isEmpty then "untitled"
  else String.mk ((stripPy (s.data.map replChar)).take 200)

/-! Support lemmas about dropWhile, trimming and the sanitizer. -/

theorem dropWhile_idem (p : Char → Bool) (l : List Char) :
    (l.dropWhile p).dropWhile p = l.dropWhile p := by
  cases h : l.dropWhile p with
  | nil => simp
  | cons a t =>
    have hw : l.dropWhile p ≠ [] := by simp [h]
    have ha := List.head_dropWhile_not p l hw
    have hh : (l.dropWhile p).head hw = a := by simp [h]
    rw [hh] at ha
    rw [List.dropWhile_cons_of_neg (by simp [ha])]

theorem dropWhile_fixed_of_pre {p : Char → Bool} {l₁ l₂ : List Char}
    (hpre : l₁ <+: l₂) (hfix : l₂.dropWhile p = l₂) :
    l₁.dropWhile p = l₁ := by
  cases l₁ with
  | nil => simp
  | cons a t =>
    obtain ⟨r, hr⟩ := hpre
    by_cases hp : p a = true
    · exfalso
      rw [← hr, List.cons_append, List.dropWhile_cons_of_pos hp] at hfix
      have hsub := List.dropWhile_sublist (l := t ++ r) p
      have hlen := hsub.length_le
      rw [hfix] at hlen
      simp at hlen
    · rw [List.dropWhile_cons_of_neg (by simpa using hp)]

theorem trimRight_isPre (l : List Char) : trimRight l <+: l := by
  unfold trimRight
  have h : l.reverse.dropWhile pySpace <:+ l.reverse :=
    List.dropWhile_suffix pySpace
  have h2 : (l.reverse.dropWhile pySpace).reverse <+: l.reverse.reverse :=
    List.reverse_prefix.mpr h
  rwa [List.reverse_reverse] at h2

theorem trimLeft_stripPy (l : List Char) : trimLeft (stripPy l) = stripPy l := by
  have hfix : (trimLeft l).dropWhile pySpace = trimLeft l := dropWhile_idem pySpace l
  exact dropWhile_fixed_of_pre (trimRight_isPre (trimLeft l)) hfix

theorem trimRight_idem (l : List Char) : trimRight (trimRight l) = trimRight l := by
  unfold trimRight
  rw [List.reverse_reverse, dropWhile_idem]

theorem stripPy_idem (l : List Char) : stripPy (stripPy l) = stripPy l := by
  unfold stripPy
  rw [show trimLeft (trimRight (trimLeft l)) = trimRight (trimLeft l) from
    trimLeft_stripPy l]
  exact trimRight_idem (trimLeft l)

theorem stripPy_subset (l : List Char) : stripPy l ⊆ l := by
  intro c hc
  have h1 : c ∈ trimLeft l := (trimRight_isPre (trimLeft l)).subset hc
  exact List.dropWhile_subset pySpace h1

theorem replChar_idem (c : Char) : replChar (replChar c) = replChar c := by
  unfold replChar
  by_cases h : badChar c = true
  · simp [h]
  · simp [h]

theorem map_replChar_of_mem_map {l : List Char}
    (h : ∀ c ∈ l, replChar c = c) : l.map replChar = l := by
  induction l with
  | nil => simp
  | cons a t ih =>
    simp only [List.map_cons]
    rw [h a (by simp), ih (fun c hc => h c (by simp [hc]))]

/-- Claim C5 (amended).  The sanitizer always returns a non-empty string, and
it is idempotent on every input whose stripped, character-replaced form fits
the 200-character limit; when truncation fires it can cut right after
whitespace, leaving a trailing space that a second pass strips, so the
unconditional idempotence stated in the claim fails (see the
counterexample). -/
theorem c5_sanitize_nonempty_and_conditional_idem (s : String) :
    sanitize_filename s ≠ "" ∧
    ((stripPy (s.data.map replChar)).length ≤ 200 →
      sanitize_filename (sanitize_filename s) = sanitize_filename s) := by
  constructor
  · unfold sanitize_filename
    cases h : (stripPy (s.data.map replChar)).take 200 with
    | nil => simp [h]
    | cons a t =>
      intro hcontra
      rw [if_neg (by simp)] at hcontra
      have h2 := congrArg String.data hcontra
      simp at h2
  · intro hlen
    have htake : (stripPy (s.data.map replChar)).take 200 =
        stripPy (s.data.map replChar) := List.take_of_length_le hlen
    cases ht : stripPy (s.data.map replChar) with
    | nil =>
      have h1 : sanitize_filename s = "untitled" := by
        unfold sanitize_filename
        rw [htake, ht]
        simp
      rw [h1]
      rfl
    | cons a t =>
      have h1 : sanitize_filename s = String.mk (a :: t) := by
        unfold sanitize_filename
        rw [htake, ht]
        simp
      rw [h1]
      have hmap : (a :: t).map replChar = a :: t := by
        apply map_replChar_of_mem_map
        intro c hc
        have hc2 : c ∈ s.data.map replChar := by
          apply stripPy_subset
          rw [ht]
          exact hc
        obtain ⟨d, _, rfl⟩ := List.mem_map.1 hc2
        exact replChar_idem d
      have hstrip : stripPy (a :: t) = a :: t := by
        conv_lhs => rw [← ht]
        rw [stripPy_idem, ht]
      have hlen2 : (a :: t).length ≤ 200 := by rw [← ht]; exact hlen
      unfold sanitize_filename
      have hdata : (String.mk (a :: t)).data = a :: t := rfl
      rw [hdata, hmap, hstrip, List.take_of_length_le hlen2]
      simp

/-- A 201-character title: truncation to 200 characters cuts right after a
space, so the first sanitize pass returns a string with a trailing space and a
second pass strips it. -/
def c5Input : String := String.mk (List.replicate 199 'a' ++ [' ', 'b'])

/-! Data model of the sync engine.  Entries are the JSON objects the program
reads from the API; the fields below are the keys the program accesses.
Timestamps are rationals (the code only compares them), network responses and
the ISO-8601 parser are explicit arguments. -/

/-- A Wallabag entry as the program consumes it: id, title, url, content and
created_at are the keys read by check_for_new_entries, the export routine and
create_html_export. -/
structure Entry where
  id : Nat
  title : String
  url : String
  content : String
  created_at : String
deriving DecidableEq

/-- Python truthiness of an optional float (the watermark): None and 0.0 are
falsy, every other value is truthy. -/
def pyTruthyFloat : Option ℚ → Bool
  | none => false
  | some q => if q = 0 then false else true

/-- Python int() applied to a float: truncation toward zero.  On rationals
with positive denominator, Int division of numerator by denominator truncates
toward zero exactly like int(). -/
def pyInt (q : ℚ) : Int := q.num / q.den

/-- get_entries (lines 103-134): returns [] when no token is available and
authentication fails, sends the since parameter only when the given
since_timestamp is truthy (int-truncated), and returns [] on any request
failure; otherwise it returns the embedded items list.  authOk abstracts
"a bearer token is present or obtainable"; server is the remote listing
endpoint as a function of the optional since parameter, with none modelling a
RequestException. -/
def get_entries (authOk : Bool) (server : Option Int → Option (List Entry))
    (since_timestamp : Option ℚ) : List Entry :=
  if !authOk then []
  else
    match server (if pyTruthyFloat since_timestamp then
        some (pyInt (since_timestamp.getD 0)) else none) with
    | some items => items
    | none => []

/-- The per-entry predicate of the client-side re-filter in
check_for_new_entries (lines 402-413): keep an entry when its created_at
parses to a timestamp strictly greater than the watermark, and keep it when
parsing raises (the except branch appends it). -/
def keep_new (parseD : String → Option ℚ) (last_check : ℚ) (e : Entry) : Bool :=
  match parseD e.created_at with
  | some ts => decide (last_check < ts)
  | none => true

/-- The new_entries selection of check_for_new_entries (lines 400-416): when
last_check is truthy the listing is re-filtered with keep_new, otherwise
(first run, or a falsy stored value) the whole listing is taken as new. -/
def filter_new (parseD : String → Option ℚ) (last_check : Option ℚ)
    (entries : List Entry) : List Entry :=
  match last_check with
  | none => entries
  | some t => if t = 0 then entries else entries.filter (keep_new parseD t)

/-- Result of one check cycle: either the cycle completed, saving the given
watermark and having exported the given number of entries, or it was aborted
by an uncaught AttributeError before the watermark save. -/
inductive CycleResult where
  | completed (saved : ℚ) (exported : Nat)
  | attributeError
deriving DecidableEq

/-- check_for_new_entries (lines 385-429).  current_time is captured before
the listing fetch (line 388 precedes line 393).  When the listing is empty the
watermark is saved immediately (line 397).  Otherwise the re-filter runs; if
it keeps nothing the export loop body never executes and the watermark is
saved (line 429).  If it keeps at least one entry, the loop evaluates
self.export_entry — but the class defines no such attribute: the intended
method body (lines 349-383) sits as unreachable statements
inside import_from_csv after its return, so the attribute lookup raises
AttributeError and the save on line 429 is never reached. -/
def check_for_new_entries (parseD : String → Option ℚ) (authOk : Bool)
    (server : Option Int → Option (List Entry)) (last_check : Option ℚ)
    (current_time : ℚ) : CycleResult :=
  let entries := get_entries authOk server last_check
  if entries.isEmpty then CycleResult.completed current_time 0
  else
    match filter_new parseD last_check entries with
    | [] => CycleResult.completed current_time 0
    | _ :: _ => CycleResult.attributeError

/-! HTML renderer (create_html_export, lines 167-237).  The f-string template
is reproduced verbatim; literal braces and apostrophes appear as escape
codes. -/

def htmlPartA : String := "<!DOCTYPE html>\n<html lang=\"en\">\n<head>\n    <meta charset=\"UTF-8\">\n    <meta name=\"viewport\" content=\"width=device-width, initial-scale=1.0\">\n    <title>"

def htmlPartB : String := "</title>\n    <style>\n        body \x7b\n            font-family: -apple-system, BlinkMacSystemFont, \x27Segoe UI\x27, Roboto, sans-serif;\n            max-width: 800px;\n            margin: 0 auto;\n            padding: 20px;\n            line-height: 1.6;\n            color: #333;\n        \x7d\n        .header \x7b\n            border-bottom: 1px solid #eee;\n            padding-bottom: 20px;\n            margin-bottom: 30px;\n        \x7d\n        .title \x7b\n            font-size: 2em;\n            font-weight: bold;\n            margin-bottom: 10px;\n        \x7d\n        .meta \x7b\n            color: #666;\n            font-size: 0.9em;\n        \x7d\n        .url \x7b\n            word-break: break-all;\n            margin: 10px 0;\n        \x7d\n        .content \x7b\n            margin-top: 30px;\n        \x7d\n        .content img \x7b\n            max-width: 100%;\n            height: auto;\n        \x7d\n    </style>\n</head>\n<body>\n    <div class=\"header\">\n        <div class=\"title\">"

def htmlPartC : String := "</div>\n        <div class=\"meta\">\n            <div>Saved on: "

def htmlPartD : String := "</div>\n            <div class=\"url\">Original URL: <a href=\""

def htmlPartE : String := "\">"

def htmlPartF : String := "</a></div>\n        </div>\n    </div>\n    <div class=\"content\">\n        "

def htmlPartG : String := "\n    </div>\n</body>\n</html>"

/-- create_html_export: formats created_at through the ISO parser and
strftime when parsing succeeds, falls back to the raw created_at string
otherwise, and splices title (twice), the formatted date, url (twice) and the
raw content into the template. -/
def create_html_export (parseD : String → Option ℚ) (fmtDT : ℚ → String)
    (entry : Entry) : String :=
  htmlPartA ++ entry.title ++ htmlPartB ++ entry.title ++ htmlPartC ++
    (match parseD entry.created_at with
     | some d => fmtDT d
     | none => entry.created_at) ++
    htmlPartD ++ entry.url ++ htmlPartE ++ entry.url ++ htmlPartF ++
    entry.content ++ htmlPartG

/-- Result of one export: the returned boolean and, when the write happened,
the written file as (filename, html body). -/
structure ExportOutcome where
  ok : Bool
  written : Option (String × String)
deriving DecidableEq

/-- The per-entry export routine (source lines 349-383, the body whose def
line is missing; embedded as written).  Fetch the full content by id (None
aborts the export of this entry with False); render the HTML from the full
entry; derive the filename from the summary entry created_at, with the
unknown-date fallback when parsing raises, and from the sanitized title;
write, returning False when the write raises.  fmtDate is strftime with the
date-only format, fmtDT with the date-time format; writeOk abstracts whether
the file write succeeds. -/
def export_entry (parseD : String → Option ℚ) (fmtDate fmtDT : ℚ → String)
    (getContent : Nat → Option Entry) (writeOk : Bool) (entry : Entry) :
    ExportOutcome :=
  match getContent entry.id with
  | none => { ok := false, written := none }
  | some full =>
    if writeOk then
      { ok := true
        written := some
          ((match parseD entry.created_at with
            | some d => fmtDate d
            | none => "unknown-date") ++ "_" ++
              sanitize_filename entry.title ++ ".html",
           create_html_export parseD fmtDT full) }
    else { ok := false, written := none }

/-! Add-entry operation (add_entry_to_wallabag, lines 239-274) and the
CSV import pipeline (import_from_csv, lines 276-348). -/

/-- Outcome of the POST to the entries endpoint: a 2xx response carrying the
created resource (a JSON object, modelled as a key-value list), a non-2xx
response with its status code, or a transport error with no response. -/
inductive PostOutcome where
  | success (resource : List (String × String))
  | httpError (status : Nat)
  | transportError
deriving DecidableEq

/-- The three return values of add_entry_to_wallabag: the created resource,
the literal True for the 409 already-exists case, the literal False for every
other failure. -/
inductive AddEntryReturn where
  | created (resource : List (String × String))
  | conflictTrue
  | failFalse
deriving DecidableEq

/-- add_entry_to_wallabag: False when no token is available and
authentication fails; on a response, the created resource for success, True
for status 409, False for any other status or for a transport error. -/
def add_entry_to_wallabag (authOk : Bool) (post : PostOutcome) : AddEntryReturn :=
  if !authOk then .failFalse
  else
    match post with
    | .success r => .created r
    | .httpError s => if s = 409 then .conflictTrue else .failFalse
    | .transportError => .failFalse

/-- Python truthiness of an add_entry_to_wallabag return value, as tested by
the if in import_from_csv line 329: a dict is truthy unless empty, True is
truthy, False is falsy. -/
def addTruthy : AddEntryReturn → Bool
  | .created r => !r.isEmpty
  | .conflictTrue => true
  | .failFalse => false

/-- The import counters, plus addCalls: an instrumentation field counting how
many times the add-entry network operation was invoked (it is not a source
variable; it makes the dry-run no-network property statable). -/
structure ImportTotals where
  imported : Nat
  errored : Nat
  skipped : Nat
  addCalls : Nat
deriving DecidableEq

/-- Tag extraction (lines 322-324): tags come only from column index 4, when
the row has more than 4 columns and that column is non-empty after
stripping. -/
def rowTags (row : List String) : Option String :=
  match row.get? 4 with
  | some s => if pyStrip s = "" then none else some (pyStrip s)
  | none => none

/-- One iteration of the row loop of import_from_csv (lines 307-337): skip
and count rows with fewer than 2 columns, skip and count rows whose stripped
url (column 1) is empty; otherwise, outside dry-run, call add (the add-entry
operation, abstracted as a function of url, title, tags) and count imported
on a truthy return and errored otherwise; in dry-run, count imported with no
call. -/
def process_row (dry_run : Bool)
    (add : String → String → Option String → AddEntryReturn)
    (st : ImportTotals) (row : List String) : ImportTotals :=
  if row.length < 2 then { st with skipped := st.skipped + 1 }
  else
    if pyStrip (row.getD 1 "") = "" then { st with skipped := st.skipped + 1 }
    else
      if !dry_run then
        if addTruthy (add (pyStrip (row.getD 1 "")) (pyStrip (row.getD 0 ""))
            (rowTags row)) then
          { st with imported := st.imported + 1, addCalls := st.addCalls + 1 }
        else
          { st with errored := st.errored + 1, addCalls := st.addCalls + 1 }
      else { st with imported := st.imported + 1 }

/-- The row loop as a fold. -/
def csv_rows_fold (dry_run : Bool)
    (add : String → String → Option String → AddEntryReturn)
    (rows : List (List String)) (st : ImportTotals) : ImportTotals :=
  rows.foldl (process_row dry_run add) st

/-- Prefix test on character lists (structural, so that concrete header
checks evaluate by kernel reduction). -/
def isPrefixOfList : List Char → List Char → Bool
  | [], _ => true
  | _ :: _, [] => false
  | a :: as, b :: bs => a = b && isPrefixOfList as bs

/-- Substring test on character lists: pat occurs somewhere in the second
argument. -/
def containsSubList (pat : List Char) : List Char → Bool
  | [] => isPrefixOfList pat []
  | b :: bs => isPrefixOfList pat (b :: bs) || containsSubList pat bs

/-- Python str.lower on one character (ASCII range, which covers the header
keywords the heuristic looks for). -/
def lowerChar (c : Char) : Char :=
  if decide ('A' ≤ c) && decide (c ≤ 'Z') then Char.ofNat (c.toNat + 32) else c

/-- Header detection (lines 297-300): the stripped, lowercased first line
contains the substring title or the substring url. -/
def has_header (first_line : String) : Bool :=
  containsSubList "title".data ((stripPy first_line.data).map lowerChar) ||
  containsSubList "url".data ((stripPy first_line.data).map lowerChar)

/-- import_from_csv (lines 276-348), named csv_import here: detect a header
from the raw first line, drop it from the parsed rows when found, and fold
the row loop over the remaining rows starting from zero counters. -/
def csv_import (dry_run : Bool)
    (add : String → String → Option String → AddEntryReturn)
    (first_line : String) (rows : List (List String)) : ImportTotals :=
  csv_rows_fold dry_run add (if has_header first_line then rows.tail else rows)
    { imported := 0, errored := 0, skipped := 0, addCalls := 0 }

/-- A structurally valid CSV row: at least 2 columns and a non-empty stripped
url column. -/
def valid_row (row : List String) : Bool :=
  decide (2 ≤ row.length) && decide (pyStrip (row.getD 1 "") ≠ "")

/-! Concrete fixtures used by closed evaluations and witnesses. -/

/-- A concrete timestamp parser: four parsable created_at strings and
everything else unparsable. -/
def pdW : String → Option ℚ := fun s =>
  if s = "a999" then some (1000 - 1)
  else if s = "a1000" then some 1000
  else if s = "a1001" then some (1000 + 1)
  else if s = "a600" then some 600
  else none

def entA : Entry := { id := 1, title := "A", url := "http://a", content := "body-a", created_at := "a999" }

def entB : Entry := { id := 2, title := "B", url := "http://b", content := "body-b", created_at := "a1000" }

def entC : Entry := { id := 3, title := "C", url := "http://c", content := "body-c", created_at := "a1001" }

def entD : Entry := { id := 4, title := "D", url := "http://d", content := "body-d", created_at := "a600" }

/-- An entry whose created_at does not parse and whose title contains
characters the sanitizer replaces. -/
def entU : Entry := { id := 5, title := "U: odd/title?", url := "http://u", content := "body-u", created_at := "garbage" }

/-- Claim C1.  The claim says the watermark is overwritten at the end of
every check cycle, including cycles where every per-entry export failed.  On
the code this fails: a cycle whose listing returns any entry reaches the
export loop, whose first iteration looks up the undefined attribute
export_entry and raises, so the save on line 429 never runs; only cycles with
an empty listing (or an empty filtered set) reach a save.  This theorem
evaluates the embedded cycle at both kinds of input. -/
theorem c1_nonempty_cycle_crashes_before_watermark_save :
    check_for_new_entries pdW true (fun _ => some [entU]) none 1234 =
      CycleResult.attributeError ∧
    check_for_new_entries pdW true (fun _ => some []) none 1234 =
      CycleResult.completed 1234 0 := by
  exact ⟨rfl, rfl⟩

/-- Claim C2.  The claim says a single entry failure never aborts the export
phase.  On the code the export phase cannot even start: with a present
watermark and one genuinely new entry in the listing, the filtered set is
that entry, and the cycle aborts with AttributeError on the first loop
iteration — before any per-entry fetch or write could fail or be skipped. -/
theorem c2_export_phase_aborts_on_first_entry :
    filter_new pdW (some 500) [entD] = [entD] ∧
    check_for_new_entries pdW true (fun _ => some [entD]) (some 500) 1234 =
      CycleResult.attributeError := by
  exact ⟨by decide, by decide⟩

/-- Claim C3.  For an entry whose created_at fails to parse, the export
routine (source lines 349-383, embedded as written) derives the filename with
the unknown-date placeholder in place of the date, still succeeds when the
content fetch and the file write succeed, and writes the rendered document,
which contains the fetched content verbatim. -/
theorem c3_unknown_date_export (parseD : String → Option ℚ)
    (fmtDate fmtDT : ℚ → String) (getContent : Nat → Option Entry)
    (entry full : Entry) (hparse : parseD entry.created_at = none)
    (hfetch : getContent entry.id = some full) :
    export_entry parseD fmtDate fmtDT getContent true entry =
      { ok := true
        written := some ("unknown-date_" ++ sanitize_filename entry.title ++ ".html",
          create_html_export parseD fmtDT full) } ∧
    ∃ pre post, create_html_export parseD fmtDT full = pre ++ full.content ++ post := by
  constructor
  · simp only [export_entry, hfetch, hparse]
    rw [show ("unknown-date" : String) ++ "_" = "unknown-date_" from rfl]
    simp
  · refine ⟨htmlPartA ++ full.title ++ htmlPartB ++ full.title ++ htmlPartC ++
      (match parseD full.created_at with
       | some d => fmtDT d
       | none => full.created_at) ++
      htmlPartD ++ full.url ++ htmlPartE ++ full.url ++ htmlPartF, htmlPartG, ?_⟩
    simp [create_html_export, String.append_assoc]

/-- Witness for C3 at a concrete input. -/
theorem c3_witness :
    export_entry pdW (fun _ => "D") (fun _ => "DT")
        (fun i => if i = 5 then some entD else none) true entU =
      { ok := true
        written := some ("unknown-date_" ++ sanitize_filename entU.title ++ ".html",
          create_html_export pdW (fun _ => "DT") entD) } ∧
    ∃ pre post, create_html_export pdW (fun _ => "DT") entD =
      pre ++ entD.content ++ post :=
  c3_unknown_date_export pdW (fun _ => "D") (fun _ => "DT")
    (fun i => if i = 5 then some entD else none) entU entD (by decide) (by decide)

/-- Claim C4.  With a present (truthy) watermark T, the client-side re-filter
keeps exactly the listed entries that parse to a timestamp strictly greater
than T together with every unparsable one, and on a listing with timestamps
T-1, T and T+1 it keeps exactly the T+1 entry. -/
theorem c4_strict_refilter (parseD : String → Option ℚ) (T : ℚ)
    (entries : List Entry) (hT : T ≠ 0) :
    (∀ e, e ∈ filter_new parseD (some T) entries ↔
      e ∈ entries ∧ (parseD e.created_at = none ∨
        ∃ c, parseD e.created_at = some c ∧ T < c)) ∧
    (∀ e1 e2 e3 : Entry, parseD e1.created_at = some (T - 1) →
      parseD e2.created_at = some T → parseD e3.created_at = some (T + 1) →
      filter_new parseD (some T) [e1, e2, e3] = [e3]) := by
  constructor
  · intro e
    simp only [filter_new, if_neg hT, List.mem_filter]
    constructor
    · rintro ⟨hmem, hkeep⟩
      refine ⟨hmem, ?_⟩
      cases hp : parseD e.created_at with
      | none => exact Or.inl rfl
      | some c =>
        refine Or.inr ⟨c, rfl, ?_⟩
        simp [keep_new, hp] at hkeep
        exact hkeep
    · rintro ⟨hmem, hcase⟩
      refine ⟨hmem, ?_⟩
      cases hcase with
      | inl hp => simp [keep_new, hp]
      | inr hex =>
        obtain ⟨c, hp, hlt⟩ := hex
        simp [keep_new, hp, hlt]
  · intro e1 e2 e3 h1 h2 h3
    simp only [filter_new, if_neg hT, List.filter, keep_new, h1, h2, h3]
    have hn1 : ¬ T < T - 1 := by linarith
    have hn2 : ¬ T < T := lt_irrefl T
    have hy3 : T < T + 1 := by linarith
    simp [hn1, hn2, hy3]

/-- Witness for C4: watermark 1000, listing with timestamps 999, 1000 and
1001; exactly the 1001 entry survives the re-filter. -/
theorem c4_witness :
    filter_new pdW (some 1000) [entA, entB, entC] = [entC] :=
  (c4_strict_refilter pdW 1000 [entA, entB, entC] (by decide)).2
    entA entB entC rfl rfl rfl

set_option maxRecDepth 10000 in
/-- Counterexample for C5 as stated: a 201-character title on which the
sanitizer is not idempotent. -/
theorem c5_counterexample :
    sanitize_filename (sanitize_filename c5Input) ≠ sanitize_filename c5Input := by
  decide

/-- Witness for C5 at a concrete input. -/
theorem c5_witness :
    sanitize_filename "a b" ≠ "" ∧
    sanitize_filename (sanitize_filename "a b") = sanitize_filename "a b" :=
  ⟨(c5_sanitize_nonempty_and_conditional_idem "a b").1,
   (c5_sanitize_nonempty_and_conditional_idem "a b").2 (by decide)⟩

/-- Claim C6.  Row validation of the CSV import: rows with fewer than 2
columns are skipped and counted, rows with an empty stripped url are skipped
and counted, tags come only from column index 4 when present and non-empty,
and the concrete 3-row file of the claim yields imported 1, errored 0,
skipped 2 (with exactly one add-entry call) when the add-entry call returns a
truthy result. -/
theorem c6_csv_row_validation :
    (∀ (dr : Bool) (add : String → String → Option String → AddEntryReturn)
       (st : ImportTotals) (row : List String), row.length < 2 →
      process_row dr add st row = { st with skipped := st.skipped + 1 }) ∧
    (∀ (dr : Bool) (add : String → String → Option String → AddEntryReturn)
       (st : ImportTotals) (row : List String), pyStrip (row.getD 1 "") = "" →
      process_row dr add st row = { st with skipped := st.skipped + 1 }) ∧
    (∀ row : List String, row.length ≤ 4 → rowTags row = none) ∧
    (∀ (row : List String) (s : String), row.get? 4 = some s → pyStrip s = "" →
      rowTags row = none) ∧
    (∀ (row : List String) (s : String), row.get? 4 = some s → pyStrip s ≠ "" →
      rowTags row = some (pyStrip s)) ∧
    (∀ add : String → String → Option String → AddEntryReturn,
      addTruthy (add "http://example.com/a" "Some Page" none) = true →
      csv_import false add "Some Page,http://example.com/a"
        [["Some Page", "http://example.com/a"], ["onlyone"], ["t3", "   "]] =
        { imported := 1, errored := 0, skipped := 2, addCalls := 1 }) := by
  refine ⟨?_, ?_, ?_, ?_, ?_, ?_⟩
  · intro dr add st row h
    unfold process_row
    rw [if_pos h]
  · intro dr add st row h
    unfold process_row
    by_cases h2 : row.length < 2
    · rw [if_pos h2]
    · rw [if_neg h2, if_pos h]
  · intro row h
    unfold rowTags
    rw [List.get?_eq_none.mpr h]
  · intro row s h h2
    unfold rowTags
    rw [h]
    simp [h2]
  · intro row s h h2
    unfold rowTags
    rw [h]
    simp [h2]
  · intro add h
    have step1 : process_row false add
        { imported := 0, errored := 0, skipped := 0, addCalls := 0 }
        ["Some Page", "http://example.com/a"] =
        { imported := 1, errored := 0, skipped := 0, addCalls := 1 } := by
      unfold process_row
      rw [if_neg (by decide), if_neg (by decide), if_pos (by decide),
        show pyStrip (["Some Page", "http://example.com/a"].getD 1 "") =
          "http://example.com/a" from by decide,
        show pyStrip (["Some Page", "http://example.com/a"].getD 0 "") =
          "Some Page" from by decide,
        show rowTags ["Some Page", "http://example.com/a"] = none from by decide,
        if_pos h]
    unfold csv_import csv_rows_fold
    rw [if_neg (by decide)]
    simp only [List.foldl_cons, List.foldl_nil]
    rw [step1,
      show process_row false add
        { imported := 1, errored := 0, skipped := 0, addCalls := 1 } ["onlyone"] =
        { imported := 1, errored := 0, skipped := 1, addCalls := 1 } from by
          unfold process_row
          rw [if_pos (by decide)],
      show process_row false add
        { imported := 1, errored := 0, skipped := 1, addCalls := 1 } ["t3", "   "] =
        { imported := 1, errored := 0, skipped := 2, addCalls := 1 } from by
          unfold process_row
          rw [if_neg (by decide), if_pos (by decide)]]

/-- Witness for C6 with a concrete always-succeeding add-entry oracle. -/
theorem c6_witness :
    csv_import false (fun _ _ _ => AddEntryReturn.created [("id", "1")])
      "Some Page,http://example.com/a"
      [["Some Page", "http://example.com/a"], ["onlyone"], ["t3", "   "]] =
      { imported := 1, errored := 0, skipped := 2, addCalls := 1 } :=
  c6_csv_row_validation.2.2.2.2.2
    (fun _ _ _ => AddEntryReturn.created [("id", "1")]) (by decide)

/-- Claim C7.  add_entry_to_wallabag returns the created resource on 2xx, the
distinct value True exactly for a 409 response, and False for every other
failure; composed into the import row loop, a 409 outcome increments the
imported counter while any other failing status increments the error
counter. -/
theorem c7_add_entry_outcomes :
    (∀ r, add_entry_to_wallabag true (PostOutcome.success r) =
      AddEntryReturn.created r) ∧
    (add_entry_to_wallabag true (PostOutcome.httpError 409) =
      AddEntryReturn.conflictTrue) ∧
    (∀ s, s ≠ 409 → add_entry_to_wallabag true (PostOutcome.httpError s) =
      AddEntryReturn.failFalse) ∧
    (add_entry_to_wallabag true PostOutcome.transportError =
      AddEntryReturn.failFalse) ∧
    (∀ (add : String → String → Option String → AddEntryReturn)
       (postOf : String → String → Option String → PostOutcome)
       (st : ImportTotals) (row : List String),
      (∀ u t g, add u t g = add_entry_to_wallabag true (postOf u t g)) →
      valid_row row = true →
      postOf (pyStrip (row.getD 1 "")) (pyStrip (row.getD 0 "")) (rowTags row) =
        PostOutcome.httpError 409 →
      process_row false add st row =
        { st with imported := st.imported + 1, addCalls := st.addCalls + 1 }) ∧
    (∀ (add : String → String → Option String → AddEntryReturn)
       (postOf : String → String → Option String → PostOutcome)
       (st : ImportTotals) (row : List String) (s : Nat),
      (∀ u t g, add u t g = add_entry_to_wallabag true (postOf u t g)) →
      valid_row row = true →
      postOf (pyStrip (row.getD 1 "")) (pyStrip (row.getD 0 "")) (rowTags row) =
        PostOutcome.httpError s →
      s ≠ 409 →
      process_row false add st row =
        { st with errored := st.errored + 1, addCalls := st.addCalls + 1 }) := by
  refine ⟨?_, rfl, ?_, rfl, ?_, ?_⟩
  · intro r
    rfl
  · intro s hs
    simp [add_entry_to_wallabag, hs]
  · intro add postOf st row hadd hv hp
    simp only [valid_row, Bool.and_eq_true, decide_eq_true_eq] at hv
    obtain ⟨h1, h2⟩ := hv
    unfold process_row
    rw [if_neg (by omega), if_neg h2, if_pos (by decide),
      hadd (pyStrip (row.getD 1 "")) (pyStrip (row.getD 0 "")) (rowTags row),
      hp, if_pos (by decide)]
  · intro add postOf st row s hadd hv hp hs
    simp only [valid_row, Bool.and_eq_true, decide_eq_true_eq] at hv
    obtain ⟨h1, h2⟩ := hv
    unfold process_row
    rw [if_neg (by omega), if_neg h2, if_pos (by decide),
      hadd (pyStrip (row.getD 1 "")) (pyStrip (row.getD 0 "")) (rowTags row),
      hp,
      if_neg (by simp [add_entry_to_wallabag, addTruthy, hs])]

/-- Witness for C7: conflict counted as imported, a 500 counted as errored. -/
theorem c7_witness :
    add_entry_to_wallabag true (PostOutcome.httpError 409) =
      AddEntryReturn.conflictTrue ∧
    process_row false
      (fun u t g => add_entry_to_wallabag true
        ((fun _ _ _ => PostOutcome.httpError 409) u t g))
      { imported := 0, errored := 0, skipped := 0, addCalls := 0 }
      ["T", "http://t"] =
      { imported := 1, errored := 0, skipped := 0, addCalls := 1 } ∧
    process_row false
      (fun u t g => add_entry_to_wallabag true
        ((fun _ _ _ => PostOutcome.httpError 500) u t g))
      { imported := 0, errored := 0, skipped := 0, addCalls := 0 }
      ["T", "http://t"] =
      { imported := 0, errored := 1, skipped := 0, addCalls := 1 } :=
  ⟨c7_add_entry_outcomes.2.1,
   c7_add_entry_outcomes.2.2.2.2.1
     (fun u t g => add_entry_to_wallabag true ((fun _ _ _ => PostOutcome.httpError 409) u t g))
     (fun _ _ _ => PostOutcome.httpError 409)
     { imported := 0, errored := 0, skipped := 0, addCalls := 0 }
     ["T", "http://t"] (fun _ _ _ => rfl) (by decide) rfl,
   c7_add_entry_outcomes.2.2.2.2.2
     (fun u t g => add_entry_to_wallabag true ((fun _ _ _ => PostOutcome.httpError 500) u t g))
     (fun _ _ _ => PostOutcome.httpError 500)
     { imported := 0, errored := 0, skipped := 0, addCalls := 0 }
     ["T", "http://t"] 500 (fun _ _ _ => rfl) (by decide) rfl (by decide)⟩

/-- Dry-run shape of one row step: a valid row counts imported, an invalid
one counts skipped, nothing else changes and add is never consulted. -/
theorem process_row_dry (add : String → String → Option String → AddEntryReturn)
    (st : ImportTotals) (row : List String) :
    process_row true add st row =
      if valid_row row then { st with imported := st.imported + 1 }
      else { st with skipped := st.skipped + 1 } := by
  unfold process_row
  by_cases h1 : row.length < 2
  · rw [if_pos h1, if_neg]
    intro hc
    simp only [valid_row, Bool.and_eq_true, decide_eq_true_eq] at hc
    omega
  · by_cases h2 : pyStrip (row.getD 1 "") = ""
    · rw [if_neg h1, if_pos h2, if_neg]
      intro hc
      simp only [valid_row, Bool.and_eq_true, decide_eq_true_eq] at hc
      exact hc.2 h2
    · rw [if_neg h1, if_neg h2, if_neg (by decide), if_pos]
      simp only [valid_row, Bool.and_eq_true, decide_eq_true_eq]
      exact ⟨by omega, h2⟩

/-- Dry-run fold: the add-call counter never moves and imported counts the
valid rows. -/
theorem csv_fold_dry (add : String → String → Option String → AddEntryReturn)
    (rows : List (List String)) (st : ImportTotals) :
    (csv_rows_fold true add rows st).addCalls = st.addCalls ∧
    (csv_rows_fold true add rows st).imported =
      st.imported + (rows.filter valid_row).length := by
  induction rows generalizing st with
  | nil => simp [csv_rows_fold]
  | cons r rs ih =>
    unfold csv_rows_fold
    simp only [List.foldl_cons]
    rw [process_row_dry]
    by_cases h : valid_row r = true
    · rw [if_pos h]
      have hrec := ih { st with imported := st.imported + 1 }
      unfold csv_rows_fold at hrec
      refine ⟨hrec.1, ?_⟩
      rw [hrec.2]
      simp [List.filter_cons, h]
      omega
    · rw [if_neg h]
      have hrec := ih { st with skipped := st.skipped + 1 }
      unfold csv_rows_fold at hrec
      refine ⟨hrec.1, ?_⟩
      rw [hrec.2]
      simp [List.filter_cons, h]

/-- Claim C8.  A dry-run import performs zero add-entry network calls for
every input, and its imported count equals the number of structurally valid
rows among the processed (post header removal) rows. -/
theorem c8_dry_run_frame (add : String → String → Option String → AddEntryReturn)
    (first_line : String) (rows : List (List String)) :
    (csv_import true add first_line rows).addCalls = 0 ∧
    (csv_import true add first_line rows).imported =
      ((if has_header first_line then rows.tail else rows).filter valid_row).length := by
  unfold csv_import
  have h := csv_fold_dry add (if has_header first_line then rows.tail else rows)
    { imported := 0, errored := 0, skipped := 0, addCalls := 0 }
  simpa using h

/-- Claim C9.  A failed listing fetch (auth failure or request error) yields
the empty list, which the cycle cannot distinguish from a genuinely empty
result: it completes, reports zero exports and persists the cycle start time;
and on any later run with that persisted (truthy) watermark, an entry whose
timestamp is at or before the watermark is excluded by the re-filter, so the
window is never recovered. -/
theorem c9_fetch_failure_loses_window (parseD : String → Option ℚ) :
    (∀ (server : Option Int → Option (List Entry)) (since : Option ℚ),
      get_entries false server since = []) ∧
    (∀ (server : Option Int → Option (List Entry)) (since : Option ℚ),
      (∀ p, server p = none) → get_entries true server since = []) ∧
    (∀ (authOk : Bool) (server : Option Int → Option (List Entry))
       (lc : Option ℚ) (ct : ℚ), get_entries authOk server lc = [] →
      check_for_new_entries parseD authOk server lc ct =
        CycleResult.completed ct 0) ∧
    (∀ (w c : ℚ) (e : Entry), parseD e.created_at = some c → c ≤ w →
      keep_new parseD w e = false) ∧
    (∀ (w : ℚ) (entries : List Entry) (e : Entry), w ≠ 0 →
      keep_new parseD w e = false → e ∉ filter_new parseD (some w) entries) := by
  refine ⟨?_, ?_, ?_, ?_, ?_⟩
  · intro server since
    rfl
  · intro server since h
    unfold get_entries
    rw [h]
    rfl
  · intro authOk server lc ct h
    unfold check_for_new_entries
    rw [h]
    rfl
  · intro w c e hp hle
    simp [keep_new, hp, not_lt.mpr hle]
  · intro w entries e hw hk
    simp only [filter_new, if_neg hw, List.mem_filter]
    rintro ⟨-, hkeep⟩
    rw [hk] at hkeep
    cases hkeep

/-- Witness for C9: a transport-failing listing, a completed cycle saving the
pre-fetch time, and exclusion of a 600-timestamp entry under watermark 700. -/
theorem c9_witness :
    get_entries false (fun _ => some [entD]) (some 5) = [] ∧
    get_entries true (fun _ => none) (some 5) = [] ∧
    check_for_new_entries pdW true (fun _ => none) (some 5) 777 =
      CycleResult.completed 777 0 ∧
    keep_new pdW 700 entD = false ∧
    entD ∉ filter_new pdW (some 700) [entD] :=
  ⟨(c9_fetch_failure_loses_window pdW).1 (fun _ => some [entD]) (some 5),
   (c9_fetch_failure_loses_window pdW).2.1 (fun _ => none) (some 5) (fun _ => rfl),
   (c9_fetch_failure_loses_window pdW).2.2.1 true (fun _ => none) (some 5) 777
     ((c9_fetch_failure_loses_window pdW).2.1 (fun _ => none) (some 5) (fun _ => rfl)),
   (c9_fetch_failure_loses_window pdW).2.2.2.1 700 600 entD rfl (by decide),
   (c9_fetch_failure_loses_window pdW).2.2.2.2 700 [entD] entD (by decide)
     ((c9_fetch_failure_loses_window pdW).2.2.2.1 700 600 entD rfl (by decide))⟩

/-- Claim C10.  A stored watermark equal to 0 is falsy in Python and is
treated exactly like an absent watermark: the listing request is made with no
since parameter (the same call as with no watermark at all), and the
re-filter step keeps the entire listing, i.e. first-run semantics. -/
theorem c10_zero_watermark_is_absent (parseD : String → Option ℚ)
    (authOk : Bool) (server : Option Int → Option (List Entry))
    (entries : List Entry) :
    get_entries authOk server (some 0) = get_entries authOk server none ∧
    filter_new parseD (some 0) entries = entries ∧
    filter_new parseD none entries = entries := by
  exact ⟨rfl, rfl, rfl⟩

end WallabagSync
